import Mathlib

/-!
Verification development for the matthew-bot repository (src/main.py):
the platform classifier, the format ranking engine (quality keyboard),
and the session / callback state machine of the Telegram bot.

Python strings are modelled as Lean `String` / `List Char`; Python dicts
with known field sets become structures whose `Option` fields model
missing keys; the Telegram channel and the yt-dlp media source are
external collaborators, so their calls become effect markers in a trace,
and the result of a download is an explicit `DlOutcome` input.
-/

namespace MBot

/-! ## Python string primitives used by main.py -/

/-- Python `sub in hay` on strings: contiguous substring containment. -/
def hasSub : List Char → List Char → Bool
  | [], sub => sub.isEmpty
  | c :: rest, sub => sub.isPrefixOf (c :: rest) || hasSub rest sub

/-- Python `s.startswith(pre)`. -/
def pyStartswith (s pre : String) : Bool :=
  pre.data.isPrefixOf s.data

/-- Python `s.lower()` (ASCII case folding, as used on URL hosts). -/
def lowerAll (l : List Char) : List Char :=
  l.map Char.toLower

/-- Python `s.upper()` (used in the button labels). -/
def upperAll (s : String) : String :=
  ⟨s.data.map Char.toUpper⟩

/-- Python `a < b` on strings: lexicographic comparison by code point. -/
def charListLt : List Char → List Char → Bool
  | [], [] => false
  | [], _ :: _ => true
  | _ :: _, [] => false
  | a :: as, b :: bs => if a = b then charListLt as bs else decide (a.toNat < b.toNat)

/-- Python `s.replace('www.', '')`: every occurrence of `www.` is removed,
scanning left to right (main.py line 41). -/
def stripWWWAll : List Char → List Char
  | 'w' :: 'w' :: 'w' :: '.' :: rest => stripWWWAll rest
  | c :: rest => c :: stripWWWAll rest
  | [] => []

/-- Python `data.replace('category_', '')` (main.py line 294). -/
def stripCategoryAll : List Char → List Char
  | 'c' :: 'a' :: 't' :: 'e' :: 'g' :: 'o' :: 'r' :: 'y' :: '_' :: rest =>
      stripCategoryAll rest
  | c :: rest => c :: stripCategoryAll rest
  | [] => []

/-- Python `data.replace('download_', '')` (main.py line 302). -/
def stripDownloadAll : List Char → List Char
  | 'd' :: 'o' :: 'w' :: 'n' :: 'l' :: 'o' :: 'a' :: 'd' :: '_' :: rest =>
      stripDownloadAll rest
  | c :: rest => c :: stripDownloadAll rest
  | [] => []

def pyStripCategory (s : String) : String := ⟨stripCategoryAll s.data⟩

def pyStripDownload (s : String) : String := ⟨stripDownloadAll s.data⟩

/-- Model of `urllib.parse.urlparse(url).netloc` for URLs of the shape
`scheme://host/rest`: the text between the first `//` and the next
`/`, `?` or `#` (empty when the URL has no `//`). -/
def afterDoubleSlash : List Char → Option (List Char)
  | '/' :: '/' :: rest => some rest
  | _ :: rest => afterDoubleSlash rest
  | [] => none

def netloc (url : String) : String :=
  match afterDoubleSlash url.data with
  | some rest => ⟨rest.takeWhile fun c => c != '/' && c != '?' && c != '#'⟩
  | none => ""

/-! ## Platform classifier (MediaDownloader.get_platform, main.py 29-46) -/

/-- `self.supported_platforms` (main.py 29-36), in insertion order. -/
def supported_platforms : List (String × String) :=
  [("youtube.com", "YouTube"),
   ("youtu.be", "YouTube"),
   ("twitter.com", "Twitter/X"),
   ("x.com", "Twitter/X"),
   ("tiktok.com", "TikTok"),
   ("newgrounds.com", "Newgrounds")]

/-- `domain = urlparse(url).netloc.lower().replace('www.', '')` (line 41). -/
def normHost (url : String) : List Char :=
  stripWWWAll (lowerAll (netloc url).data)

/-- `get_platform` (main.py 38-46): the first table entry whose domain
substring occurs in the normalized host; `None` when no entry matches. -/
def get_platform (url : String) : Option String :=
  (supported_platforms.find? fun e => hasSub (normHost url) e.1.data).map
    fun e => e.2

/-- The normalization the spec describes instead: lowercase, then strip only
a LEADING `www.` label.  Declared to compare with `normHost` above, which
models the code. -/
def specNormalizeHost (host : String) : List Char :=
  let l := lowerAll host.data
  if "www.".data.isPrefixOf l then l.drop 4 else l

/-! ## Format ranking engine (TelegramBot.create_quality_keyboard, main.py 212-263) -/

/-- `MAX_FILE_SIZE = 2 * 1024 * 1024 * 1024` (main.py 25). -/
def MAX_FILE_SIZE : Nat := 2 * 1024 * 1024 * 1024

/-- One entry of `info['formats']`: a yt-dlp format dict.  Each `Option`
field models a possibly missing dict key (`f.get(...)`). -/
structure FormatInfo where
  format_id : String
  acodec : Option String := none
  vcodec : Option String := none
  abr : Option Nat := none
  height : Option Nat := none
  ext : Option String := none
  filesize : Option Nat := none
  filesize_approx : Option Nat := none
deriving DecidableEq, Repr

/-- `filesize = f.get('filesize') or f.get('filesize_approx', 0)`
(main.py 224 / 244): Python `or` keeps the left operand only when it is
truthy (present and nonzero). -/
def effSize (f : FormatInfo) : Nat :=
  match f.filesize with
  | some n => if n ≠ 0 then n else f.filesize_approx.getD 0
  | none => f.filesize_approx.getD 0

/-- The audio tuple `(button_text, f['format_id'])` (main.py 228-229), with
the button text `f"🎵 {ext.upper()} - {quality}kbps ({size_mb:.1f}MB)"`
represented by its data: uppercased extension, the `abr` quality figure
(`none` renders as `Unknown`), and the byte size shown in MB. -/
structure AudioEntry where
  ext : String
  abr : Option Nat
  size : Nat
  format_id : String
deriving DecidableEq, Repr

/-- The video tuple `(button_text, f['format_id'], height)` (main.py 248-249)
with the button text `f"📹 {height}p {ext.upper()} ({size_mb:.1f}MB)"`
represented by its data. -/
structure VideoEntry where
  ext : String
  height : Nat
  size : Nat
  format_id : String
deriving DecidableEq, Repr

def audioEntryOf (f : FormatInfo) : AudioEntry :=
  ⟨upperAll (f.ext.getD "unknown"), f.abr, effSize f, f.format_id⟩

def videoEntryOf (f : FormatInfo) : VideoEntry :=
  ⟨upperAll (f.ext.getD "unknown"), f.height.getD 0, effSize f, f.format_id⟩

/-- The audio filtering loop (main.py 219-229): keep a format when
`f.get('acodec') != 'none' and f.get('vcodec') == 'none'` (note a missing
`acodec` key compares unequal to the string `'none'`, so it passes) and
`filesize and filesize <= MAX_FILE_SIZE` (truthiness: nonzero). -/
def audioEntries (formats : List FormatInfo) : List AudioEntry :=
  formats.filterMap fun f =>
    if f.acodec ≠ some "none" ∧ f.vcodec = some "none" then
      if effSize f ≠ 0 ∧ effSize f ≤ MAX_FILE_SIZE then
        some (audioEntryOf f)
      else none
    else none

/-- The video filtering loop (main.py 240-249): keep a format when
`f.get('vcodec') != 'none'` and
`filesize and filesize <= MAX_FILE_SIZE and height`. -/
def videoEntries (formats : List FormatInfo) : List VideoEntry :=
  formats.filterMap fun f =>
    if f.vcodec ≠ some "none" then
      if effSize f ≠ 0 ∧ effSize f ≤ MAX_FILE_SIZE ∧ f.height.getD 0 ≠ 0 then
        some (videoEntryOf f)
      else none
    else none

/-- Python `list.sort(key=k, reverse=True)` is a stable descending sort:
the result is non-increasing in the key and elements with equal keys keep
their original relative order.  `lt x b` reads `key x < key b`: the
stable descending insertion places `x` before the first element whose key
is not above the key of `x`. -/
def insertDescBy (lt : α → α → Bool) (x : α) : List α → List α
  | [] => [x]
  | b :: l => if lt x b then b :: insertDescBy lt x l else x :: b :: l

def sortDescBy (lt : α → α → Bool) : List α → List α
  | [] => []
  | x :: xs => insertDescBy lt x (sortDescBy lt xs)

/-- `audio_formats.sort(key=lambda x: x[1], reverse=True)` (main.py 232):
the tuple is `(button_text, format_id)`, so `x[1]` is the FORMAT ID
string, and the list is sorted descending by format id, not by bitrate
(the comment in the source says `Sort by quality (descending)`). -/
def audioSorted (formats : List FormatInfo) : List AudioEntry :=
  sortDescBy (fun a b => charListLt a.format_id.data b.format_id.data)
    (audioEntries formats)

/-- `video_formats.sort(key=lambda x: x[2], reverse=True)` (main.py 252):
`x[2]` is the height, so video is sorted descending by vertical
resolution. -/
def videoSorted (formats : List FormatInfo) : List VideoEntry :=
  sortDescBy (fun a b => decide (a.height < b.height)) (videoEntries formats)

/-- `audio_formats[:5]` (main.py 234). -/
def audioMenu (formats : List FormatInfo) : List AudioEntry :=
  (audioSorted formats).take 5

/-- `video_formats[:5]` (main.py 254). -/
def videoMenu (formats : List FormatInfo) : List VideoEntry :=
  (videoSorted formats).take 5

/-- A download button of the quality keyboard, one per surviving format. -/
inductive Candidate
  | audio (e : AudioEntry)
  | video (e : VideoEntry)
deriving DecidableEq, Repr

/-- The byte size a candidate shows (and was filtered by). -/
def Candidate.size : Candidate → Nat
  | .audio e => e.size
  | .video e => e.size

/-- The ordered download-button rows `create_quality_keyboard` emits for a
category (main.py 217-255): the audio branch when `category == "audio"`,
the video branch when `category == "video"`, nothing otherwise. -/
def build_candidates (formats : List FormatInfo) (category : String) :
    List Candidate :=
  if category = "audio" then (audioMenu formats).map Candidate.audio
  else if category = "video" then (videoMenu formats).map Candidate.video
  else []

/-- A button of an inline keyboard. -/
inductive KbButton
  | download (c : Candidate)
  | audioCategory
  | videoCategory
  | back
  | cancel
deriving DecidableEq, Repr

/-- `create_format_keyboard` (main.py 197-210). -/
def create_format_keyboard : List KbButton :=
  [.audioCategory, .videoCategory, .cancel]

/-- `create_quality_keyboard` (main.py 212-263): the candidate rows, then
the Back and Cancel row. -/
def create_quality_keyboard (formats : List FormatInfo) (category : String) :
    List KbButton :=
  (build_candidates formats category).map .download ++ [.back, .cancel]

/-! ## Session table and orchestrator (TelegramBot, main.py 82-365) -/

/-- The `info` dict stored in a session (title, duration, formats). -/
structure MediaInfo where
  title : Option String := none
  duration : Option Nat := none
  formats : List FormatInfo := []
deriving DecidableEq, Repr

/-- One value of `self.user_sessions[user_id]` (main.py 167-171). -/
structure SessionData where
  url : String
  info : MediaInfo
  platform : String
deriving DecidableEq, Repr

/-- `self.user_sessions`: the dict keyed by user id (main.py 85).  Deleting a
key is modelled by the pointwise update to `none`, which is extensionally
what `del self.user_sessions[user_id]` (guarded by a membership test in the
source) leaves behind. -/
def SessionTable := Nat → Option SessionData

def SessionTable.empty : SessionTable := fun _ => none

def SessionTable.erase (tbl : SessionTable) (u : Nat) : SessionTable :=
  fun x => if x = u then none else tbl x

def SessionTable.insert (tbl : SessionTable) (u : Nat) (s : SessionData) :
    SessionTable :=
  fun x => if x = u then some s else tbl x

/-- The user-visible replies and edits the bot sends, by content. -/
inductive BotMsg
  | unsupportedPlatform        -- "Unsupported platform..." (148-151)
  | processing                 -- "Processing ... URL" (155-157)
  | extractionFailed           -- "Failed to extract video information." (163)
  | formatMenu (kb : List KbButton)                     -- 185-189 / 291
  | qualityMenu (category : String) (kb : List KbButton) -- 299
  | cancelled                  -- "Operation cancelled." (276)
  | sessionExpired             -- "Session expired. Please send the URL again." (280)
  | downloading                -- "Downloading... Please wait." (307)
  | downloadFailed             -- "Download failed. Please try again." (320 / 355)
  | tooLarge (size : Nat)      -- "File too large ..." (326-329)
  | uploading                  -- "Uploading to Telegram..." (332)
  | completed                  -- "Download completed!" (351)
deriving DecidableEq, Repr

/-- The externally visible steps of a handler, in program order.  Channel
sends, filesystem operations on the temp dir, the media-source download
call, and the session-table delete are each one marker. -/
inductive Eff
  | reply (m : BotMsg)
  | editMsg (m : BotMsg)
  | mkTempDir                        -- tempfile.mkdtemp() (313)
  | downloadMedia (url fid : String) -- downloader.download_media (317)
  | sendFile (audio : Bool)          -- reply_audio / reply_video (340-349)
  | rmTempDir                        -- shutil.rmtree(temp_dir) (359-360)
  | delSession (u : Nat)             -- del self.user_sessions[user_id] (364-365)
deriving DecidableEq, Repr

/-- What the external world makes of one download attempt:
`failed` = `download_media` returned no file (319);
`ok size audioExt delivers` = a file of `size` bytes exists, its name has
an audio extension iff `audioExt`, and the Telegram delivery call raises
iff `delivers` is false (the `except` branch, 353-355). -/
inductive DlOutcome
  | failed
  | ok (size : Nat) (audioExt : Bool) (delivers : Bool)
deriving DecidableEq, Repr

/-- The effects of the `try` body of `download_and_send` after the
`download_media` call (main.py 319-355), by outcome. -/
def dlBody (out : DlOutcome) : List Eff :=
  match out with
  | .failed => [.editMsg .downloadFailed]
  | .ok size audioExt delivers =>
    if size > MAX_FILE_SIZE then [.editMsg (.tooLarge size)]
    else
      .editMsg .uploading ::
        (if delivers then [.sendFile audioExt, .editMsg .completed]
         else [.editMsg .downloadFailed])

/-- `download_and_send` (main.py 305-365): the progress edit, the temp dir
creation, the download, the outcome-dependent body, then the `finally`
block (remove the temp dir, then clear the session). -/
def download_and_send (tbl : SessionTable) (u : Nat) (s : SessionData)
    (fid : String) (out : DlOutcome) : SessionTable × List Eff :=
  (tbl.erase u,
   .editMsg .downloading :: .mkTempDir :: .downloadMedia s.url fid ::
     (dlBody out ++ [.rmTempDir, .delSession u]))

/-- `handle_callback` (main.py 265-303).  `data` is the raw callback string;
`out` is consumed only when the download branch runs. -/
def handle_callback (tbl : SessionTable) (u : Nat) (data : String)
    (out : DlOutcome) : SessionTable × List Eff :=
  if data = "cancel" then
    (tbl.erase u, [.editMsg .cancelled])
  else
    match tbl u with
    | none => (tbl, [.editMsg .sessionExpired])
    | some s =>
      if data = "back" then
        (tbl, [.editMsg (.formatMenu create_format_keyboard)])
      else if pyStartswith data "category_" then
        let category := pyStripCategory data
        (tbl, [.editMsg (.qualityMenu category
          (create_quality_keyboard s.info.formats category))])
      else if pyStartswith data "download_" then
        download_and_send tbl u s (pyStripDownload data) out
      else (tbl, [])

/-- `handle_url` (main.py 140-195): classify, then fetch metadata (the
external `get_video_info`, whose result is the `fetch` input; `none` is the
falsy empty dict of a failed extraction), then store the session and show
the format keyboard. -/
def handle_url (tbl : SessionTable) (u : Nat) (url : String)
    (fetch : Option MediaInfo) : SessionTable × List Eff :=
  match get_platform url with
  | none => (tbl, [.reply .unsupportedPlatform])
  | some platform =>
    match fetch with
    | none => (tbl, [.reply .processing, .editMsg .extractionFailed])
    | some info =>
      (tbl.insert u ⟨url, info, platform⟩,
       [.reply .processing, .editMsg (.formatMenu create_format_keyboard)])

/-! ## The menu state machine of the specification -/

/-- Modelled from the spec: the `MenuState` enum of the Session data model
(spec section 3), `AwaitingCategory | AwaitingQuality(category) |
Downloading | Terminated`.  The implementation stores no such field; this
type exists to compare the specified transition rules with the code. -/
inductive MenuState
  | awaitingCategory
  | awaitingQuality (category : String)
  | downloading
  | terminated
deriving DecidableEq, Repr

/-- Modelled from the spec: `choose_quality(user_id, selection_token)` is
valid only from `AwaitingQuality` and transitions to `Downloading`
(spec section 4.4); from any other state it does not start a download
(`none` stands for the `SessionExpired` refusal). -/
def specChooseQuality : Option MenuState → Option MenuState
  | some (.awaitingQuality _) => some .downloading
  | _ => none

/-- An occurrence of `a` comes strictly before every occurrence of `b` in
the trace `tr`. -/
def precedes (a b : Eff) (tr : List Eff) : Prop :=
  ∃ l₁ l₂, tr = l₁ ++ l₂ ∧ a ∈ l₁ ∧ b ∉ l₁ ∧ b ∈ l₂

/-- Consecutive elements are non-increasing (the order the spec requires
of the rank keys of a candidate menu). -/
def nonIncreasing : List Nat → Bool
  | a :: b :: rest => decide (b ≤ a) && nonIncreasing (b :: rest)
  | _ => true

/-- The trace delivers a file to the user. -/
def sentFile (tr : List Eff) : Bool :=
  tr.any fun e => match e with
    | .sendFile _ => true
    | _ => false

/-! ## Helper lemmas -/

theorem mem_insertDescBy {lt : α → α → Bool} {x a : α} {l : List α} :
    a ∈ insertDescBy lt x l ↔ a = x ∨ a ∈ l := by
  induction l with
  | nil => simp [insertDescBy]
  | cons b l ih =>
    by_cases h : lt x b = true
    · simp only [insertDescBy, if_pos h, List.mem_cons, ih]
      tauto
    · simp only [insertDescBy, if_neg h, List.mem_cons]

theorem mem_sortDescBy {lt : α → α → Bool} {a : α} {l : List α} :
    a ∈ sortDescBy lt l ↔ a ∈ l := by
  induction l with
  | nil => simp [sortDescBy]
  | cons x xs ih => simp [sortDescBy, mem_insertDescBy, ih]

/-- Every audio menu entry arises from an input format that passed the
audio filter. -/
theorem mem_audioMenu {formats : List FormatInfo} {e : AudioEntry}
    (h : e ∈ audioMenu formats) :
    ∃ f ∈ formats, (f.acodec ≠ some "none" ∧ f.vcodec = some "none") ∧
      effSize f ≠ 0 ∧ effSize f ≤ MAX_FILE_SIZE ∧ e = audioEntryOf f := by
  have h1 : e ∈ audioSorted formats := List.mem_of_mem_take h
  have h2 : e ∈ audioEntries formats := mem_sortDescBy.mp h1
  rw [audioEntries, List.mem_filterMap] at h2
  obtain ⟨f, hf, hsome⟩ := h2
  refine ⟨f, hf, ?_⟩
  by_cases hc : f.acodec ≠ some "none" ∧ f.vcodec = some "none"
  · rw [if_pos hc] at hsome
    by_cases hs : effSize f ≠ 0 ∧ effSize f ≤ MAX_FILE_SIZE
    · rw [if_pos hs] at hsome
      exact ⟨hc, hs.1, hs.2, (Option.some_inj.mp hsome).symm⟩
    · rw [if_neg hs] at hsome
      exact absurd hsome (by simp)
  · rw [if_neg hc] at hsome
    exact absurd hsome (by simp)

/-- Every video menu entry arises from an input format that passed the
video filter (in particular its height is present and nonzero). -/
theorem mem_videoMenu {formats : List FormatInfo} {e : VideoEntry}
    (h : e ∈ videoMenu formats) :
    ∃ f ∈ formats, f.vcodec ≠ some "none" ∧
      effSize f ≠ 0 ∧ effSize f ≤ MAX_FILE_SIZE ∧ f.height.getD 0 ≠ 0 ∧
      e = videoEntryOf f := by
  have h1 : e ∈ videoSorted formats := List.mem_of_mem_take h
  have h2 : e ∈ videoEntries formats := mem_sortDescBy.mp h1
  rw [videoEntries, List.mem_filterMap] at h2
  obtain ⟨f, hf, hsome⟩ := h2
  refine ⟨f, hf, ?_⟩
  by_cases hc : f.vcodec ≠ some "none"
  · rw [if_pos hc] at hsome
    by_cases hs : effSize f ≠ 0 ∧ effSize f ≤ MAX_FILE_SIZE ∧ f.height.getD 0 ≠ 0
    · rw [if_pos hs] at hsome
      exact ⟨hc, hs.1, hs.2.1, hs.2.2, (Option.some_inj.mp hsome).symm⟩
    · rw [if_neg hs] at hsome
      exact absurd hsome (by simp)
  · rw [if_neg hc] at hsome
    exact absurd hsome (by simp)

/-- With no session stored for the user, every callback other than the
cancel button answers with the session-expired message and leaves the
table untouched (main.py 279-281). -/
theorem handle_callback_no_session {tbl : SessionTable} {u : Nat}
    {data : String} {out : DlOutcome} (h : tbl u = none)
    (hc : data ≠ "cancel") :
    handle_callback tbl u data out = (tbl, [.editMsg .sessionExpired]) := by
  rw [handle_callback, if_neg hc, h]

/-- With a session stored, a callback that is neither cancel, back nor a
category press and carries the download prefix runs `download_and_send`
on the stripped format id (main.py 301-303). -/
theorem handle_callback_download {tbl : SessionTable} {u : Nat}
    {data : String} {out : DlOutcome} {s : SessionData} (hs : tbl u = some s)
    (hc : data ≠ "cancel") (hb : data ≠ "back")
    (hcat : pyStartswith data "category_" = false)
    (hdl : pyStartswith data "download_" = true) :
    handle_callback tbl u data out =
      download_and_send tbl u s (pyStripDownload data) out := by
  rw [handle_callback, if_neg hc, hs]
  simp only [if_neg hb, hcat, hdl]
  rfl

/-- The outcome-dependent middle of the download trace never touches the
session table. -/
theorem dlBody_no_delSession (out : DlOutcome) (u : Nat) :
    Eff.delSession u ∉ dlBody out := by
  match out with
  | .failed => simp [dlBody]
  | .ok size audioExt delivers =>
    rw [dlBody]
    split
    · simp
    · match delivers with
      | true => simp
      | false => simp

/-! ## Fixtures for concrete evaluations -/

/-- Six audio-only formats with the bitrates of the spec example
([128, 320, 64, 256, 192, 96]), all far below the size cap, carrying
yt-dlp-style format id strings. -/
def c1Formats : List FormatInfo :=
  [{ format_id := "140", acodec := some "mp4a", vcodec := some "none",
     abr := some 128, ext := some "m4a", filesize := some 3000000 },
   { format_id := "141", acodec := some "mp4a", vcodec := some "none",
     abr := some 320, ext := some "m4a", filesize := some 7000000 },
   { format_id := "139", acodec := some "mp4a", vcodec := some "none",
     abr := some 64, ext := some "m4a", filesize := some 1500000 },
   { format_id := "258", acodec := some "mp4a", vcodec := some "none",
     abr := some 256, ext := some "m4a", filesize := some 6000000 },
   { format_id := "171", acodec := some "webm", vcodec := some "none",
     abr := some 192, ext := some "webm", filesize := some 4500000 },
   { format_id := "250", acodec := some "opus", vcodec := some "none",
     abr := some 96, ext := some "webm", filesize := some 2200000 }]

def demoSession : SessionData :=
  ⟨"https://tiktok.com/v/1", {}, "TikTok"⟩

/-- A table holding one session, for user 7. -/
def wTbl : SessionTable := SessionTable.empty.insert 7 demoSession

/-- The table after user 7 sends a YouTube URL whose metadata fetch
succeeds: the session exists and no category has been chosen yet. -/
def c2Tbl : SessionTable :=
  (handle_url SessionTable.empty 7 "https://youtube.com/watch?v=abc"
    (some {})).1

/-- The table after a complete download attempt for user 7. -/
def c6After : SessionTable :=
  (handle_callback wTbl 7 "download_99" (.ok 1000 true true)).1

/-- An audio format that survives every filter. -/
def c4Fmt : FormatInfo :=
  { format_id := "251", acodec := some "opus", vcodec := some "none",
    abr := some 160, ext := some "webm", filesize := some 4000000 }

/-- A video format with a known in-cap size but no height key. -/
def c9FmtNoH : FormatInfo :=
  { format_id := "137", vcodec := some "avc1", ext := some "mp4",
    filesize := some 5000000 }

/-! ## C1 -/

/-- Claim C1 (code bug): on the six-bitrate input the audio menu is NOT
sorted descending by bitrate: the produced abr sequence is
[256, 96, 192, 320, 128] (descending in the format id string instead,
because main.py 232 sorts the `(button_text, format_id)` tuples by index 1),
and the sequence is not non-increasing, so the first candidate reflects
bitrate 256, not 320. -/
theorem audio_menu_rank_key_violation :
    ((build_candidates c1Formats "audio").map fun c => match c with
      | Candidate.audio e => e.abr
      | Candidate.video _ => none) =
      [some 256, some 96, some 192, some 320, some 128] ∧
    nonIncreasing ((audioMenu c1Formats).map fun e => e.abr.getD 0) =
      false := by decide

/-! ## C2 -/

/-- Claim C2 (counterexample): the spec state machine refuses
`choose_quality` from `AwaitingCategory`, but after `handle_url` stored a
session — no category chosen yet, the state the spec calls
`AwaitingCategory` — a `download_18` button press makes the code call the
downloader. -/
theorem download_without_category_choice :
    specChooseQuality (some MenuState.awaitingCategory) = none ∧
    c2Tbl 7 = some ⟨"https://youtube.com/watch?v=abc", {}, "YouTube"⟩ ∧
    Eff.downloadMedia "https://youtube.com/watch?v=abc" "18" ∈
      (handle_callback c2Tbl 7 "download_18" (.ok 1000 false true)).2 := by
  decide

/-- Claim C2 (amended): a `download_<token>` press starts the download for
every user that has any stored session, whatever menu was last shown —
the implementation keeps no menu state — and the attempt ends with the
session removed. -/
theorem choose_quality_needs_only_session (tbl : SessionTable) (u : Nat)
    (data : String) (out : DlOutcome) (s : SessionData)
    (hs : tbl u = some s) (hc : data ≠ "cancel") (hb : data ≠ "back")
    (hcat : pyStartswith data "category_" = false)
    (hdl : pyStartswith data "download_" = true) :
    Eff.downloadMedia s.url (pyStripDownload data) ∈
      (handle_callback tbl u data out).2 ∧
    (handle_callback tbl u data out).1 u = none := by
  rw [handle_callback_download hs hc hb hcat hdl, download_and_send]
  constructor
  · simp
  · simp [SessionTable.erase]

theorem choose_quality_needs_only_session_witness :
    Eff.downloadMedia demoSession.url (pyStripDownload "download_18") ∈
      (handle_callback wTbl 7 "download_18" DlOutcome.failed).2 ∧
    (handle_callback wTbl 7 "download_18" DlOutcome.failed).1 7 = none :=
  choose_quality_needs_only_session wTbl 7 "download_18" .failed demoSession
    rfl (by decide) (by decide) (by decide) (by decide)

/-! ## C3 -/

/-- Claim C3 (counterexample): the two spec examples behave as stated, but
normalization is not a leading-label strip: for
`https://x.www.com/p` the host `x.www.com` contains no configured
substring after the normalization the claim describes, yet the classifier
answers `Twitter/X`, because `replace('www.', '')` deletes the inner
`www.` and leaves `x.com`. -/
theorem get_platform_strips_all_www :
    get_platform "https://www.youtu.be/abc" = some "YouTube" ∧
    get_platform "https://vimeo.com/x" = none ∧
    get_platform "https://x.www.com/p" = some "Twitter/X" ∧
    (∀ e ∈ supported_platforms,
      hasSub (specNormalizeHost (netloc "https://x.www.com/p")) e.1.data =
        false) := by decide

/-- Claim C3 (amended): with the normalization the code performs —
lowercase the host, then delete EVERY occurrence of the substring
`www.` — the classifier answers some configured platform name exactly
when the normalized host contains a configured host substring (the first
matching table entry wins), and `Unsupported` (`none`) otherwise. -/
theorem get_platform_characterization (url : String) :
    (∀ name, get_platform url = some name →
      ∃ e ∈ supported_platforms,
        hasSub (normHost url) e.1.data = true ∧ e.2 = name) ∧
    (get_platform url = none ↔
      ∀ e ∈ supported_platforms, hasSub (normHost url) e.1.data = false) := by
  constructor
  · intro name h
    rw [get_platform, Option.map_eq_some'] at h
    obtain ⟨e, he, hname⟩ := h
    have hp := List.find?_some he
    exact ⟨e, List.mem_of_find?_eq_some he, by simpa using hp, hname⟩
  · rw [get_platform, Option.map_eq_none', List.find?_eq_none]
    constructor
    · intro h e he
      have := h e he
      simpa using this
    · intro h e he
      simp [h e he]

theorem get_platform_characterization_witness :
    ∃ e ∈ supported_platforms,
      hasSub (normHost "https://www.youtu.be/abc") e.1.data = true ∧
      e.2 = "YouTube" :=
  (get_platform_characterization "https://www.youtu.be/abc").1 "YouTube"
    (by decide)

/-! ## C4 -/

/-- Every candidate of a menu carries the (nonzero, in-cap) effective size
of the format it was built from. -/
theorem size_of_mem_build_candidates {formats : List FormatInfo}
    {category : String} {c : Candidate}
    (hc : c ∈ build_candidates formats category) :
    c.size ≠ 0 ∧ c.size ≤ MAX_FILE_SIZE := by
  rw [build_candidates] at hc
  by_cases ha : category = "audio"
  · rw [if_pos ha] at hc
    obtain ⟨e, he, rfl⟩ := List.mem_map.mp hc
    obtain ⟨f, hf, hcodec, h1, h2, rfl⟩ := mem_audioMenu he
    exact ⟨h1, h2⟩
  · rw [if_neg ha] at hc
    by_cases hv : category = "video"
    · rw [if_pos hv] at hc
      obtain ⟨e, he, rfl⟩ := List.mem_map.mp hc
      obtain ⟨f, hf, hcodec, h1, h2, hh, rfl⟩ := mem_videoMenu he
      exact ⟨h1, h2⟩
    · rw [if_neg hv] at hc
      simp at hc

/-- Claim C4: for every metadata input and category, the candidate menu has
at most 5 entries, every entry shows a nonzero size within
`MAX_FILE_SIZE`, and a format whose effective size is unknown (zero —
both size keys missing or zero) never appears, whatever its bitrate or
resolution. -/
theorem build_candidates_size_bounds (formats : List FormatInfo)
    (category : String) :
    (build_candidates formats category).length ≤ 5 ∧
    (∀ c ∈ build_candidates formats category,
      c.size ≠ 0 ∧ c.size ≤ MAX_FILE_SIZE) ∧
    (∀ f ∈ formats, effSize f = 0 →
      Candidate.audio (audioEntryOf f) ∉ build_candidates formats category ∧
      Candidate.video (videoEntryOf f) ∉ build_candidates formats category) := by
  refine ⟨?_, fun c hc => size_of_mem_build_candidates hc, ?_⟩
  · rw [build_candidates]
    split
    · simp only [List.length_map, audioMenu, List.length_take]
      exact min_le_left _ _
    · split
      · simp only [List.length_map, videoMenu, List.length_take]
        exact min_le_left _ _
      · simp
  · intro f hf h0
    constructor
    · intro hmem
      have := (size_of_mem_build_candidates hmem).1
      exact this (by simp [Candidate.size, audioEntryOf, h0])
    · intro hmem
      have := (size_of_mem_build_candidates hmem).1
      exact this (by simp [Candidate.size, videoEntryOf, h0])

theorem build_candidates_size_bounds_witness :
    (Candidate.audio (audioEntryOf c4Fmt)).size ≠ 0 ∧
    (Candidate.audio (audioEntryOf c4Fmt)).size ≤ MAX_FILE_SIZE :=
  (build_candidates_size_bounds [c4Fmt] "audio").2.1 _ (by decide)

/-! ## C5 -/

/-- Claim C5: with no stored session for the user — never started, or
already cancelled/terminated — every menu callback other than the cancel
button (back, category picks, quality picks, anything else) answers with
the session-expired message and leaves the session table exactly as it
was. -/
theorem no_session_callback_expires (tbl : SessionTable) (u : Nat)
    (data : String) (out : DlOutcome) (h : tbl u = none)
    (hc : data ≠ "cancel") :
    handle_callback tbl u data out = (tbl, [Eff.editMsg .sessionExpired]) :=
  handle_callback_no_session h hc

theorem no_session_callback_expires_witness :
    handle_callback SessionTable.empty 3 "back" DlOutcome.failed =
      (SessionTable.empty, [Eff.editMsg .sessionExpired]) :=
  no_session_callback_expires SessionTable.empty 3 "back" .failed rfl
    (by decide)

/-! ## C6 -/

/-- Claim C6 (amended): every download attempt — whatever its outcome —
ends with the session of that user removed from the table, and every
subsequent menu callback other than the cancel button (which never
reports expiry) answers with the session-expired message until a fresh
session is started. -/
theorem download_attempt_frees_session (tbl : SessionTable) (u : Nat)
    (data : String) (out : DlOutcome) (s : SessionData)
    (hs : tbl u = some s) (hc : data ≠ "cancel") (hb : data ≠ "back")
    (hcat : pyStartswith data "category_" = false)
    (hdl : pyStartswith data "download_" = true) :
    (handle_callback tbl u data out).1 u = none ∧
    ∀ data2 out2, data2 ≠ "cancel" →
      handle_callback (handle_callback tbl u data out).1 u data2 out2 =
        ((handle_callback tbl u data out).1,
          [Eff.editMsg .sessionExpired]) := by
  have h1 : (handle_callback tbl u data out).1 u = none := by
    rw [handle_callback_download hs hc hb hcat hdl, download_and_send]
    simp [SessionTable.erase]
  exact ⟨h1, fun _ _ hc2 => handle_callback_no_session h1 hc2⟩

theorem download_attempt_frees_session_witness :
    (handle_callback wTbl 7 "download_18" DlOutcome.failed).1 7 = none ∧
    handle_callback (handle_callback wTbl 7 "download_18" DlOutcome.failed).1
        7 "back" DlOutcome.failed =
      ((handle_callback wTbl 7 "download_18" DlOutcome.failed).1,
        [Eff.editMsg .sessionExpired]) :=
  ⟨(download_attempt_frees_session wTbl 7 "download_18" .failed demoSession
      rfl (by decide) (by decide) (by decide) (by decide)).1,
   (download_attempt_frees_session wTbl 7 "download_18" .failed demoSession
      rfl (by decide) (by decide) (by decide) (by decide)).2 "back" .failed
      (by decide)⟩

/-- Claim C6 (counterexample): after a complete download attempt the
session of user 7 is gone, yet the next cancel-button press does NOT
report session expiry — it answers with the cancellation message — so
not EVERY subsequent operation reports `SessionExpired`. -/
theorem cancel_after_download_reports_cancelled :
    c6After 7 = none ∧
    (handle_callback c6After 7 "cancel" DlOutcome.failed).2 =
      [Eff.editMsg .cancelled] ∧
    Eff.editMsg .sessionExpired ∉
      (handle_callback c6After 7 "cancel" DlOutcome.failed).2 := by decide

/-! ## C7 -/

/-- Claim C7: in every download attempt the temporary directory is created
before the media download runs, its removal appears on every exit path —
download failure, oversize rejection, delivery exception and success —
and that removal comes before the session teardown. -/
theorem temp_dir_scoped_lifecycle (tbl : SessionTable) (u : Nat)
    (s : SessionData) (fid : String) (out : DlOutcome) :
    precedes Eff.mkTempDir (Eff.downloadMedia s.url fid)
      (download_and_send tbl u s fid out).2 ∧
    Eff.rmTempDir ∈ (download_and_send tbl u s fid out).2 ∧
    precedes Eff.rmTempDir (Eff.delSession u)
      (download_and_send tbl u s fid out).2 := by
  refine ⟨?_, ?_, ?_⟩
  · refine ⟨[.editMsg .downloading, .mkTempDir],
      .downloadMedia s.url fid :: (dlBody out ++ [.rmTempDir, .delSession u]),
      ?_, by simp, by simp, by simp⟩
    simp [download_and_send]
  · rw [download_and_send]
    simp
  · refine ⟨.editMsg .downloading :: .mkTempDir :: .downloadMedia s.url fid ::
      (dlBody out ++ [.rmTempDir]), [.delSession u], ?_, by simp, ?_, by simp⟩
    · rw [download_and_send]
      simp
    · simp [dlBody_no_delSession out u]

/-! ## C8 -/

/-- Claim C8: when the downloaded file turns out larger than
`MAX_FILE_SIZE`, no file is sent to the user: the too-large message is
shown instead and the session is torn down in the `finally` block. -/
theorem oversize_file_not_delivered (tbl : SessionTable) (u : Nat)
    (s : SessionData) (fid : String) (size : Nat) (audioExt delivers : Bool)
    (h : size > MAX_FILE_SIZE) :
    sentFile (download_and_send tbl u s fid
      (.ok size audioExt delivers)).2 = false ∧
    Eff.editMsg (.tooLarge size) ∈
      (download_and_send tbl u s fid (.ok size audioExt delivers)).2 ∧
    (download_and_send tbl u s fid (.ok size audioExt delivers)).1 u =
      none := by
  refine ⟨?_, ?_, ?_⟩
  · simp [download_and_send, dlBody, if_pos h, sentFile]
  · simp [download_and_send, dlBody, if_pos h]
  · simp [download_and_send, SessionTable.erase]

theorem oversize_file_not_delivered_witness :
    sentFile (download_and_send wTbl 7 demoSession "22"
      (.ok (MAX_FILE_SIZE + 1) false true)).2 = false ∧
    Eff.editMsg (.tooLarge (MAX_FILE_SIZE + 1)) ∈
      (download_and_send wTbl 7 demoSession "22"
        (.ok (MAX_FILE_SIZE + 1) false true)).2 ∧
    (download_and_send wTbl 7 demoSession "22"
      (.ok (MAX_FILE_SIZE + 1) false true)).1 7 = none :=
  oversize_file_not_delivered wTbl 7 demoSession "22" (MAX_FILE_SIZE + 1)
    false true (Nat.lt_succ_self _)

/-! ## C9 -/

/-- Claim C9: an encoding reaches the video menu only through the video
filter, so its height key is present and nonzero; an encoding whose
height is missing or zero never appears there, however large or in-cap
its size is. -/
theorem video_menu_requires_height (formats : List FormatInfo) :
    (∀ c ∈ build_candidates formats "video", ∃ f ∈ formats,
      f.vcodec ≠ some "none" ∧ f.height.getD 0 ≠ 0 ∧ effSize f ≠ 0 ∧
      effSize f ≤ MAX_FILE_SIZE ∧ c = Candidate.video (videoEntryOf f)) ∧
    (∀ f ∈ formats, f.height.getD 0 = 0 →
      Candidate.video (videoEntryOf f) ∉ build_candidates formats "video") := by
  have hmem : ∀ c ∈ build_candidates formats "video", ∃ f ∈ formats,
      f.vcodec ≠ some "none" ∧ f.height.getD 0 ≠ 0 ∧ effSize f ≠ 0 ∧
      effSize f ≤ MAX_FILE_SIZE ∧ c = Candidate.video (videoEntryOf f) := by
    intro c hc
    rw [build_candidates, if_neg (by decide), if_pos rfl] at hc
    obtain ⟨e, he, rfl⟩ := List.mem_map.mp hc
    obtain ⟨f, hf, hcodec, h1, h2, hh, rfl⟩ := mem_videoMenu he
    exact ⟨f, hf, hcodec, hh, h1, h2, rfl⟩
  refine ⟨hmem, ?_⟩
  intro f hf h0 habs
  obtain ⟨g, _, _, hgh, _, _, heq⟩ := hmem _ habs
  have : videoEntryOf g = videoEntryOf f := by
    injection heq.symm
  have hheights : g.height.getD 0 = f.height.getD 0 :=
    congrArg VideoEntry.height this
  rw [h0] at hheights
  exact hgh hheights

theorem video_menu_requires_height_witness :
    Candidate.video (videoEntryOf c9FmtNoH) ∉
      build_candidates [c9FmtNoH] "video" :=
  (video_menu_requires_height [c9FmtNoH]).2 c9FmtNoH (by decide) rfl

/-! ## C10 -/

/-- Claim C10: the cancel button never reports session expiry: it always
answers with the cancellation message; it clears exactly the entry of the
pressing user and no other, and with no session stored the table is left
pointwise unchanged. -/
theorem cancel_button_never_expires (tbl : SessionTable) (u : Nat)
    (out : DlOutcome) :
    (handle_callback tbl u "cancel" out).2 = [Eff.editMsg .cancelled] ∧
    (handle_callback tbl u "cancel" out).1 u = none ∧
    (∀ v, v ≠ u → (handle_callback tbl u "cancel" out).1 v = tbl v) ∧
    (tbl u = none → ∀ v, (handle_callback tbl u "cancel" out).1 v = tbl v) := by
  rw [handle_callback, if_pos rfl]
  refine ⟨rfl, by simp [SessionTable.erase], ?_, ?_⟩
  · intro v hv
    simp [SessionTable.erase, hv]
  · intro h v
    by_cases hv : v = u
    · subst hv
      simp [SessionTable.erase, h]
    · simp [SessionTable.erase, hv]

theorem cancel_button_never_expires_witness :
    (handle_callback wTbl 7 "cancel" DlOutcome.failed).2 =
      [Eff.editMsg .cancelled] ∧
    (handle_callback wTbl 7 "cancel" DlOutcome.failed).1 7 = none ∧
    (handle_callback wTbl 7 "cancel" DlOutcome.failed).1 8 = wTbl 8 :=
  ⟨(cancel_button_never_expires wTbl 7 .failed).1,
   (cancel_button_never_expires wTbl 7 .failed).2.1,
   (cancel_button_never_expires wTbl 7 .failed).2.2.1 8 (by decide)⟩

end MBot
